import Mathlib

/-!
Shallow embedding of the VAPI webhook ingestion service
(`src/routes/submit_call.py`, `src/routes/contacts.py`, `src/db.py`).

Python JSON values are modelled by the mutual inductive `PyVal`;
Python `dict.get` (which raises `AttributeError` on non-dicts) is
modelled in the `Except String` monad; the two Flask routes become
pure functions from their inputs (environment secret, Authorization
header, parsed JSON body, outcome of the outbound Vapi HTTP call,
current database contents and clock) to a response plus the new
database contents, with `Except.error` marking an uncaught Python
exception.  The SQL upserts of `submit_call.py` (lines 237-410) and
`contacts.py` (lines 51-67) are modelled on association lists of rows;
the `id` / `phone_number` PRIMARY KEY / UNIQUE constraints make the
conflicting row unique, so the upsert updates the first matching row.
-/

mutual
/-- Model of a Python/JSON value as received by `request.get_json`.
Lists and dicts are mutual inductives (`PyItems`, `PyFields`) so that
decidable equality can be derived. -/
inductive PyVal where
  | none : PyVal
  | str (s : String) : PyVal
  | int (n : Int) : PyVal
  | bool (b : Bool) : PyVal
  | list (l : PyItems) : PyVal
  | dict (d : PyFields) : PyVal
deriving DecidableEq

inductive PyItems where
  | nil : PyItems
  | cons (v : PyVal) (rest : PyItems) : PyItems
deriving DecidableEq

inductive PyFields where
  | nil : PyFields
  | cons (k : String) (v : PyVal) (rest : PyFields) : PyFields
deriving DecidableEq
end

/-- Build a `PyItems` from a list (convenience for payload literals). -/
def PyItems.ofList : List PyVal → PyItems
  | [] => .nil
  | v :: rest => .cons v (PyItems.ofList rest)

/-- Convert a `PyItems` back to a `List PyVal`. -/
def PyItems.toList : PyItems → List PyVal
  | .nil => []
  | .cons v rest => v :: rest.toList

/-- Build a `PyFields` from a list of key/value pairs. -/
def PyFields.ofList : List (String × PyVal) → PyFields
  | [] => .nil
  | (k, v) :: rest => .cons k v (PyFields.ofList rest)

/-- Dict literal helper. -/
def pyd (l : List (String × PyVal)) : PyVal := .dict (PyFields.ofList l)

/-- List literal helper. -/
def pyl (l : List PyVal) : PyVal := .list (PyItems.ofList l)

/-- First value bound to a key in a `PyFields` (Python dicts have unique
keys, so first-match lookup is faithful). -/
def PyFields.lookup : PyFields → String → Option PyVal
  | .nil, _ => Option.none
  | .cons k v rest, key => if k = key then some v else rest.lookup key

/-- Python truthiness (`bool(v)`): `None`, `""`, `0`, `False`, empty
list and empty dict are falsy, everything else truthy. -/
def PyVal.truthy : PyVal → Bool
  | .none => false
  | .str s => !(s = "")
  | .int n => !(n = 0)
  | .bool b => b
  | .list .nil => false
  | .list (.cons _ _) => true
  | .dict .nil => false
  | .dict (.cons _ _ _) => true

/-- Whether a value is a Python dict. -/
def PyVal.isDict : PyVal → Bool
  | .dict _ => true
  | _ => false

/-- Python `v.get(k)`: on a dict, the bound value or `None`; on any
other value it raises `AttributeError`. -/
def pyGet (v : PyVal) (k : String) : Except String PyVal :=
  match v with
  | .dict d => Except.ok ((d.lookup k).getD .none)
  | _ => Except.error "AttributeError"

/-- Total lookup used on values already known to be dicts: the bound
value, or `None` when the key is missing or the value is not a dict. -/
def lookupD (v : PyVal) (k : String) : PyVal :=
  match v with
  | .dict d => (d.lookup k).getD .none
  | _ => .none

/-- Python `a or b`. -/
def pyOr (a b : PyVal) : PyVal := if a.truthy then a else b

/-- Python `x or {}` (lines 128, 132-136, 167, 196, 200 of
`submit_call.py`). -/
def pyOrDict (v : PyVal) : PyVal := pyOr v (.dict .nil)

/-- Python `x or []` (lines 138-140, 208 of `submit_call.py`). -/
def pyOrList (v : PyVal) : PyVal := pyOr v (.list .nil)

/-- Python `a or b` on optional strings (used for
`summary_debug or call_api_debug`, line 227). -/
def pyOrStr (a b : Option String) : Option String :=
  match a with
  | some s => if s = "" then b else some s
  | Option.none => b

/-- Python `str(v)` as used in f-string interpolation of the call id.
Every payload the theorems evaluate carries string ids, so only the
scalar cases are exercised; containers get a placeholder rendering. -/
def pyToStr : PyVal → String
  | .str s => s
  | .none => "None"
  | .int n => toString n
  | .bool true => "True"
  | .bool false => "False"
  | .list _ => "<list>"
  | .dict _ => "<dict>"

/-- Characters stripped by Python `str.strip()`. -/
def isPySpace (c : Char) : Bool :=
  c = ' ' || c = '\t' || c = '\n' || c = '\r' || c = '\x0b' || c = '\x0c'

/-- Python `str.strip()` on a character list. -/
def pyStripChars (l : List Char) : List Char :=
  ((l.dropWhile isPySpace).reverse.dropWhile isPySpace).reverse

/-- Python `str.strip()`. -/
def pyStrip (s : String) : String := String.mk (pyStripChars s.data)

/-- Python `header.replace("Bearer ", "")`: removes every (left-to-right,
non-overlapping) occurrence of the seven characters of the bearer
scheme prefix. -/
def removeBearer : List Char → List Char
  | 'B' :: 'e' :: 'a' :: 'r' :: 'e' :: 'r' :: ' ' :: rest => removeBearer rest
  | c :: rest => c :: removeBearer rest
  | [] => []

/-- The token the routes compare against the secret (line 119 of
`submit_call.py`, line 35 of `contacts.py`):
`auth_header.replace("Bearer ", "").strip()`. -/
def authToken (h : String) : String := String.mk (pyStripChars (removeBearer h.data))

/-- Python `s.startswith(p)`. -/
def pyStartsWith (s p : String) : Bool := p.data.isPrefixOf s.data

/-- Outcome of the shared API-key check of both routes. -/
inductive AuthResult where
  | serverMisconfig : AuthResult
  | missingHeader : AuthResult
  | invalidKey : AuthResult
  | ok : AuthResult
deriving DecidableEq

/-- Lines 109-121 of `submit_call.py` and lines 26-37 of `contacts.py`:
`expected` is `os.environ.get("API_KEY_SECRET")` (an unset variable is
`None`; the empty string is falsy), `header` is
`request.headers.get("Authorization")`. -/
def checkAuth (expected : Option String) (header : Option String) : AuthResult :=
  match expected with
  | Option.none => .serverMisconfig
  | some k =>
    if k = "" then .serverMisconfig
    else
      match header with
      | Option.none => .missingHeader
      | some h =>
        if h = "" then .missingHeader
        else if pyStartsWith h "Bearer " then
          if authToken h = k then .ok else .invalidKey
        else .missingHeader

example : checkAuth (some "k") (some "Bearer k") = .ok := by decide
example : checkAuth (some "k") (some "Bearer  k ") = .ok := by decide
example : checkAuth (some "k") (some "Basic k") = .missingHeader := by decide
example : checkAuth (some "") (some "Bearer k") = .serverMisconfig := by decide
example : "ab".data = ['a', 'b'] := by decide

/-- The bindings established by lines 128-146 of `submit_call.py`
(message envelope, nested container objects, tool-call lists, call id).
The `customer_obj` here is the pre-fallback top-level customer object;
the fall back to `call.customer` (line 176) happens in
`extractDetails`. -/
structure EnvelopeFields where
  message : PyVal
  msg_type : PyVal
  call_obj : PyVal
  phone_number_obj : PyVal
  customer_obj : PyVal
  assistant_obj : PyVal
  artifact_obj : PyVal
  tool_calls : PyVal
  tool_call_list : PyVal
  tool_with_tool_call_list : PyVal
  call_id : PyVal
deriving DecidableEq

/-- Lines 128-143 of `submit_call.py`. -/
def extractEnvelope (data : PyVal) : Except String EnvelopeFields := do
  let message := pyOrDict (← pyGet data "message")
  let msg_type ← pyGet message "type"
  let call_obj := pyOrDict (← pyGet message "call")
  let phone_number_obj := pyOrDict (← pyGet message "phoneNumber")
  let customer_obj := pyOrDict (← pyGet message "customer")
  let assistant_obj := pyOrDict (← pyGet message "assistant")
  let artifact_obj := pyOrDict (← pyGet message "artifact")
  let tool_calls := pyOrList (← pyGet message "toolCalls")
  let tool_call_list := pyOrList (← pyGet message "toolCallList")
  let tool_with_tool_call_list := pyOrList (← pyGet message "toolWithToolCallList")
  let call_id ← pyGet call_obj "id"
  pure ⟨message, msg_type, call_obj, phone_number_obj, customer_obj, assistant_obj,
    artifact_obj, tool_calls, tool_call_list, tool_with_tool_call_list, call_id⟩

/-- Everything `submit_call` passes to the SQL insert, i.e. the
bindings of lines 148-218 of `submit_call.py` together with the
envelope objects (with `customer_obj` post-fallback). -/
structure WebhookFields where
  message : PyVal
  event_type : PyVal
  call_obj : PyVal
  phone_number_obj : PyVal
  customer_obj : PyVal
  assistant_obj : PyVal
  artifact_obj : PyVal
  tool_calls : PyVal
  tool_call_list : PyVal
  tool_with_tool_call_list : PyVal
  call_id : PyVal
  org_id : PyVal
  event_timestamp_ms : PyVal
  call_type : PyVal
  call_status : PyVal
  call_cost : PyVal
  call_created_at : PyVal
  call_updated_at : PyVal
  conversation_type : PyVal
  transport_provider : PyVal
  phone_call_provider : PyVal
  phone_call_transport : PyVal
  phone_call_provider_id : PyVal
  customer_number : PyVal
  customer_sip_uri : PyVal
  phone_number_id : PyVal
  phone_number : PyVal
  phone_number_name : PyVal
  assistant_id : PyVal
  assistant_org_id : PyVal
  assistant_name : PyVal
  assistant_model : PyVal
  assistant_model_provider : PyVal
  assistant_voice_id : PyVal
  assistant_voice_provider : PyVal
  last_user_message : PyVal
  last_assistant_message : PyVal
deriving DecidableEq

/-- The reverse scan over `artifact.messages`, lines 210-218 of
`submit_call.py`: `lu` and `la` are the running `last_user_message` /
`last_assistant_message` values (both initialized to Python `None`);
each element is interrogated with `m.get`, which raises on non-dict
elements. -/
def scanLoop : List PyVal → PyVal → PyVal → Except String (PyVal × PyVal)
  | [], lu, la => Except.ok (lu, la)
  | m :: rest, lu, la => do
    let role ← pyGet m "role"
    let msg_text ← pyGet m "message"
    let lu2 := if role = PyVal.str "user" ∧ lu = PyVal.none then msg_text else lu
    let la2 := if (role = PyVal.str "bot" ∨ role = PyVal.str "assistant") ∧ la = PyVal.none
      then msg_text else la
    if lu2 ≠ PyVal.none ∧ la2 ≠ PyVal.none then Except.ok (lu2, la2)
    else scanLoop rest lu2 la2

/-- Lines 204-218 of `submit_call.py`: take `artifact.messages or []`,
and if it is a list, scan it in reverse. -/
def extractLastMessages (artifact_obj : PyVal) : Except String (PyVal × PyVal) := do
  let artifact_messages := pyOrList (← pyGet artifact_obj "messages")
  match artifact_messages with
  | .list l => scanLoop l.toList.reverse PyVal.none PyVal.none
  | _ => pure (PyVal.none, PyVal.none)

/-- Lines 148-218 of `submit_call.py`: the field extraction that runs
after the call-id guard. -/
def extractDetails (data : PyVal) (e : EnvelopeFields) : Except String WebhookFields := do
  let org_id := pyOr (← pyGet e.call_obj "orgId") (pyOr (← pyGet e.assistant_obj "orgId")
    (pyOr (← pyGet e.message "orgId") (← pyGet data "orgId")))
  let event_timestamp_ms ← pyGet e.message "timestamp"
  let event_type := e.msg_type
  let call_type ← pyGet e.call_obj "type"
  let call_status ← pyGet e.call_obj "status"
  let call_cost ← pyGet e.call_obj "cost"
  let call_created_at ← pyGet e.call_obj "createdAt"
  let call_updated_at ← pyGet e.call_obj "updatedAt"
  let transport := pyOrDict (← pyGet e.call_obj "transport")
  let conversation_type ← pyGet transport "conversationType"
  let transport_provider ← pyGet transport "provider"
  let phone_call_provider ← pyGet e.call_obj "phoneCallProvider"
  let phone_call_transport ← pyGet e.call_obj "phoneCallTransport"
  let phone_call_provider_id ← pyGet e.call_obj "phoneCallProviderId"
  let customer_obj ← if e.customer_obj.truthy then pure e.customer_obj
    else do pure (pyOrDict (← pyGet e.call_obj "customer"))
  let customer_number ← pyGet customer_obj "number"
  let customer_sip_uri ← pyGet customer_obj "sipUri"
  let phone_number_id := pyOr (← pyGet e.message "phoneNumberId")
    (pyOr (← pyGet e.phone_number_obj "id") (← pyGet e.call_obj "phoneNumberId"))
  let phone_number ← pyGet e.phone_number_obj "number"
  let phone_number_name ← pyGet e.phone_number_obj "name"
  let assistant_id ← pyGet e.assistant_obj "id"
  let assistant_org_id ← pyGet e.assistant_obj "orgId"
  let assistant_name ← pyGet e.assistant_obj "name"
  let model_obj := pyOrDict (← pyGet e.assistant_obj "model")
  let assistant_model ← pyGet model_obj "model"
  let assistant_model_provider ← pyGet model_obj "provider"
  let voice_obj := pyOrDict (← pyGet e.assistant_obj "voice")
  let assistant_voice_id ← pyGet voice_obj "voiceId"
  let assistant_voice_provider ← pyGet voice_obj "provider"
  let lastMsgs ← extractLastMessages e.artifact_obj
  pure ⟨e.message, event_type, e.call_obj, e.phone_number_obj, customer_obj,
    e.assistant_obj, e.artifact_obj, e.tool_calls, e.tool_call_list,
    e.tool_with_tool_call_list, e.call_id, org_id, event_timestamp_ms, call_type,
    call_status, call_cost, call_created_at, call_updated_at, conversation_type,
    transport_provider, phone_call_provider, phone_call_transport,
    phone_call_provider_id, customer_number, customer_sip_uri, phone_number_id,
    phone_number, phone_number_name, assistant_id, assistant_org_id, assistant_name,
    assistant_model, assistant_model_provider, assistant_voice_id,
    assistant_voice_provider, lastMsgs.1, lastMsgs.2⟩

/-- The straight-line extraction of lines 128-218 of `submit_call.py`
(the whole field extractor, without the early 400 return of line 146). -/
def extractFields (data : PyVal) : Except String WebhookFields := do
  let e ← extractEnvelope data
  extractDetails data e

/-- Outcome of the outbound `requests.get` to the Vapi call-detail
endpoint (lines 36-53 of `submit_call.py`), made explicit as an input
of the model: the environment lacking `VAPI_API_KEY`, a timeout, any
other `requests.RequestException` (connection failure or the
`raise_for_status` of a non-success HTTP status), a body that is not
parseable JSON, or a parsed JSON body. -/
inductive FetchResult where
  | noApiKey : FetchResult
  | timeout : FetchResult
  | requestFailed (e : String) : FetchResult
  | badJson : FetchResult
  | ok (data : PyVal) : FetchResult
deriving DecidableEq

/-- Lines 12-55 of `submit_call.py`: returns the parsed call object
(when the fetch succeeded) and the debug string describing any issue. -/
def fetch_call_from_vapi (outcome : FetchResult) (call_id : String) :
    Option PyVal × Option String :=
  match outcome with
  | .noApiKey =>
    (Option.none, some ("[DEBUG call_api] VAPI_API_KEY not set for call_id=" ++ call_id))
  | .timeout =>
    (Option.none, some ("[DEBUG call_api] request to Vapi timed out for call_id=" ++ call_id))
  | .requestFailed e =>
    (Option.none,
      some ("[DEBUG call_api] request to Vapi failed for call_id=" ++ call_id ++ ": " ++ e))
  | .badJson =>
    (Option.none,
      some ("[DEBUG call_api] failed to parse JSON from Vapi for call_id=" ++ call_id))
  | .ok d => (some d, Option.none)

/-- Python `isinstance(x, str) and x.strip()` followed by use of
`x.strip()` (lines 78-79 and 84-85 of `submit_call.py`): the stripped
string when the value is a string with non-whitespace content. -/
def strippedNonEmpty : PyVal → Option String
  | .str s => if pyStrip s = "" then Option.none else some (pyStrip s)
  | _ => Option.none

/-- Lines 58-93 of `submit_call.py`: pull the best summary out of the
fetched call object.  `call_data.get` raises if Vapi returned parseable
JSON that is not an object, hence the `Except`. -/
def extract_summary_from_call (call_data : Option PyVal) (call_id : String) :
    Except String (Option String × Option String) :=
  match call_data with
  | Option.none =>
    Except.ok (Option.none,
      some ("[DEBUG call_summary] call_data is None for call_id=" ++ call_id))
  | some cd => do
    let summary ← pyGet cd "summary"
    match strippedNonEmpty summary with
    | some s => pure (some s, Option.none)
    | Option.none => do
      let analysis := pyOrDict (← pyGet cd "analysis")
      let analysis_summary ← pyGet analysis "summary"
      match strippedNonEmpty analysis_summary with
      | some s => pure (some s, Option.none)
      | Option.none =>
        pure (Option.none,
          some ("[DEBUG call_summary] call.summary empty or missing for call_id=" ++
            call_id ++ " (short or low-content call)"))

/-- The data columns of one `Calls1` row, in the order of the INSERT of
lines 244-282 of `submit_call.py` (all columns except the key `id` and
the audit timestamps).  Scalar columns carry the Python value passed to
the SQL parameter; `call_summary` is the Python string-or-None variable
of line 222-227; the `*_json` columns carry the value passed through
`Jsonb(...)` verbatim. -/
structure Calls1Data where
  org_id : PyVal
  event_timestamp_ms : PyVal
  event_type : PyVal
  call_type : PyVal
  call_status : PyVal
  call_cost : PyVal
  call_created_at : PyVal
  call_updated_at : PyVal
  conversation_type : PyVal
  transport_provider : PyVal
  phone_call_provider : PyVal
  phone_call_transport : PyVal
  phone_call_provider_id : PyVal
  customer_number : PyVal
  customer_sip_uri : PyVal
  phone_number_id : PyVal
  phone_number : PyVal
  phone_number_name : PyVal
  assistant_id : PyVal
  assistant_org_id : PyVal
  assistant_name : PyVal
  assistant_model : PyVal
  assistant_model_provider : PyVal
  assistant_voice_id : PyVal
  assistant_voice_provider : PyVal
  last_user_message : PyVal
  last_assistant_message : PyVal
  call_summary : Option String
  tool_calls_json : PyVal
  tool_call_list_json : PyVal
  tool_with_tool_call_list_json : PyVal
  artifact_json : PyVal
  call_json : PyVal
  phone_number_json : PyVal
  customer_json : PyVal
  assistant_json : PyVal
  raw_payload : PyVal
deriving DecidableEq

/-- The parameter dictionary of lines 365-404 of `submit_call.py`,
assembled from the extracted fields and the summary variable. -/
def mkCalls1Data (f : WebhookFields) (call_summary : Option String) : Calls1Data :=
  ⟨f.org_id, f.event_timestamp_ms, f.event_type, f.call_type, f.call_status,
    f.call_cost, f.call_created_at, f.call_updated_at, f.conversation_type,
    f.transport_provider, f.phone_call_provider, f.phone_call_transport,
    f.phone_call_provider_id, f.customer_number, f.customer_sip_uri,
    f.phone_number_id, f.phone_number, f.phone_number_name, f.assistant_id,
    f.assistant_org_id, f.assistant_name, f.assistant_model,
    f.assistant_model_provider, f.assistant_voice_id, f.assistant_voice_provider,
    f.last_user_message, f.last_assistant_message, call_summary, f.tool_calls,
    f.tool_call_list, f.tool_with_tool_call_list, f.artifact_obj, f.call_obj,
    f.phone_number_obj, f.customer_obj, f.assistant_obj, f.message⟩

/-- One row of the `Calls1` table (`db.py` lines 16-77): the key, the
data columns, and the audit timestamps `created_at` / `updated_at`
(both `DEFAULT NOW()` on insert). -/
structure Calls1Row where
  id : PyVal
  data : Calls1Data
  created_at : Nat
  updated_at : Nat
deriving DecidableEq

/-- The `INSERT ... ON CONFLICT (id) DO UPDATE` of lines 242-364 of
`submit_call.py`: on conflict every data column is set to the EXCLUDED
(incoming) value and `updated_at` to `NOW()`; `created_at` is left
alone.  `id` is the PRIMARY KEY, so at most one row can conflict. -/
def upsertCalls1 : List Calls1Row → PyVal → Calls1Data → Nat → List Calls1Row
  | [], id, d, now => [⟨id, d, now, now⟩]
  | r :: rest, id, d, now =>
    if r.id = id then { r with data := d, updated_at := now } :: rest
    else r :: upsertCalls1 rest id d now

/-- The column list of the `Calls1` INSERT statement (lines 244-282 of
`submit_call.py`). -/
def calls1InsertColumns : List String :=
  ["id", "org_id", "event_timestamp_ms", "event_type", "call_type", "call_status",
   "call_cost", "call_created_at", "call_updated_at", "conversation_type",
   "transport_provider", "phone_call_provider", "phone_call_transport",
   "phone_call_provider_id", "customer_number", "customer_sip_uri",
   "phone_number_id", "phone_number", "phone_number_name", "assistant_id",
   "assistant_org_id", "assistant_name", "assistant_model",
   "assistant_model_provider", "assistant_voice_id", "assistant_voice_provider",
   "last_user_message", "last_assistant_message", "call_summary",
   "tool_calls_json", "tool_call_list_json", "tool_with_tool_call_list_json",
   "artifact_json", "call_json", "phone_number_json", "customer_json",
   "assistant_json", "raw_payload"]

/-- The column list of `CREATE_CALLS1_TABLE_SQL` (`db.py` lines 16-77). -/
def calls1CreateColumns : List String :=
  calls1InsertColumns ++ ["created_at", "updated_at"]

/-- The body of the `/submit_call` route after the auth gate and JSON
parse succeed (lines 128-410 of `submit_call.py`): extraction, the
call-id guard, the enrichment fetch, and the `Calls1` upsert.  The
route becomes a function of the parsed body, the outcome of the
outbound Vapi fetch, the current table contents and the clock.
Returns the HTTP status, the salient response body text and the new
table contents; `Except.error` is an uncaught Python exception. -/
def submit_call_authed (data : PyVal) (vapi : FetchResult) (db : List Calls1Row)
    (now : Nat) : Except String ((Nat × String) × List Calls1Row) := do
  let e ← extractEnvelope data
  if e.call_id.truthy then do
    let f ← extractDetails data e
    let fetched := fetch_call_from_vapi vapi (pyToStr e.call_id)
    let summaries ← extract_summary_from_call fetched.1 (pyToStr e.call_id)
    let call_summary := match summaries.1 with
      | some s => some s
      | Option.none => pyOrStr summaries.2 fetched.2
    pure ((200, "ok"),
      upsertCalls1 db e.call_id (mkCalls1Data f call_summary) now)
  else pure ((400, "Missing call.id in payload"), db)

/-- Dispatch of the `/submit_call` route: the auth gate and the JSON
parse guard in front of `submit_call_authed`. -/
def submit_call (api_key_secret : Option String) (auth_header : Option String)
    (body : Option PyVal) (vapi : FetchResult) (db : List Calls1Row) (now : Nat) :
    Except String ((Nat × String) × List Calls1Row) :=
  match checkAuth api_key_secret auth_header with
  | .serverMisconfig => Except.ok ((500, "Server missing API_KEY_SECRET"), db)
  | .missingHeader => Except.ok ((401, "Missing Authorization header"), db)
  | .invalidKey => Except.ok ((403, "Invalid API key"), db)
  | .ok =>
    match body with
    | Option.none => Except.ok ((400, "Invalid or missing JSON"), db)
    | some data => submit_call_authed data vapi db now

example :
    (submit_call (some "k") (some "Bearer k")
      (some (pyd [("message", pyd [("type", .str "status-update"),
        ("call", pyd [("id", .str "c1")])])]))
      FetchResult.noApiKey [] 3).isOk = true := by decide

/-- One row of the `contacts` table: the unique key `phone_number` and
the three optional fields.  Each field carries the Python value passed
as the SQL parameter (`PyVal.none` is SQL NULL). -/
structure ContactRow where
  phone_number : PyVal
  first_name : PyVal
  last_name : PyVal
  email : PyVal
deriving DecidableEq

/-- Two-argument SQL `COALESCE`: the first value unless it is NULL. -/
def coalesce (a b : PyVal) : PyVal :=
  match a with
  | .none => b
  | _ => a

/-- The `INSERT ... ON CONFLICT (phone_number) DO UPDATE` of lines
55-67 of `contacts.py`: on conflict each optional column becomes
`COALESCE(contacts.col, EXCLUDED.col)`, i.e. the stored value wins
whenever it is non-NULL.  `phone_number` is unique, so at most one row
conflicts. -/
def upsertContacts : List ContactRow → PyVal → PyVal → PyVal → PyVal → List ContactRow
  | [], pn, fn, ln, em => [⟨pn, fn, ln, em⟩]
  | r :: rest, pn, fn, ln, em =>
    if r.phone_number = pn then
      ⟨r.phone_number, coalesce r.first_name fn, coalesce r.last_name ln,
        coalesce r.email em⟩ :: rest
    else r :: upsertContacts rest pn fn ln em

/-- The `/contacts` route handler (lines 10-98 of `contacts.py`), as a
function of the `API_KEY_SECRET` environment value, the Authorization
header, the parsed JSON body and the current table contents.  Note the
route answers 401 (not 403) to a wrong token, and rejects any falsy
body (`if not data`). -/
def upsert_contact (api_key_secret : Option String) (auth_header : Option String)
    (body : Option PyVal) (db : List ContactRow) :
    Except String ((Nat × String) × List ContactRow) :=
  match checkAuth api_key_secret auth_header with
  | .serverMisconfig => Except.ok ((500, "Server missing API_KEY_SECRET"), db)
  | .missingHeader => Except.ok ((401, "Missing Authorization header"), db)
  | .invalidKey => Except.ok ((401, "Invalid API key"), db)
  | .ok =>
    match body with
    | Option.none => Except.ok ((400, "Invalid JSON"), db)
    | some data =>
      if data.truthy then do
        let phone_number ← pyGet data "phone_number"
        if phone_number.truthy then do
          let first_name ← pyGet data "first_name"
          let last_name ← pyGet data "last_name"
          let email ← pyGet data "email"
          pure ((201, "success"),
            upsertContacts db phone_number first_name last_name email)
        else pure ((400, "Missing required field: phone_number"), db)
      else Except.ok ((400, "Invalid JSON"), db)

/-- Resulting table contents of a `submit_call` run (unchanged shape
accessor used by concrete theorems; an uncaught exception leaves the
table as it was, since the write is the last step). -/
def dbOfRun (db : List Calls1Row)
    (r : Except String ((Nat × String) × List Calls1Row)) : List Calls1Row :=
  match r with
  | Except.ok (_, db2) => db2
  | Except.error _ => db

/-- HTTP status of a `submit_call` / `upsert_contact` response; an
uncaught exception becomes Flask's generic 500. -/
def statusOfRun {σ : Type} (r : Except String ((Nat × String) × σ)) : Nat :=
  match r with
  | Except.ok ((st, _), _) => st
  | Except.error _ => 500

/-- Whether an `Except` computation succeeded. -/
def exceptOk {ε α : Type} : Except ε α → Bool
  | Except.ok _ => true
  | Except.error _ => false

/-- The fetch outcomes the enrichment can fail with (everything except
a parsed JSON response). -/
def isFetchFailure : FetchResult → Bool
  | .ok _ => false
  | _ => true

/-- The `Calls1` ids of a table state. -/
def calls1Ids (db : List Calls1Row) : List PyVal := db.map (fun r => r.id)

/-- Invariant maintained by the PRIMARY KEY: no two rows share an id. -/
def uniqueIds (db : List Calls1Row) : Prop := (calls1Ids db).Nodup

/-- Rows of a table carrying a given id. -/
def rowsFor (db : List Calls1Row) (id : PyVal) : List Calls1Row :=
  db.filter (fun r => r.id = id)

/-- The credential that, per the spec wording for the auth check, is
carried after the bearer prefix: the part of the header following the
seven characters "Bearer " (spec-side definition, for comparison with
`checkAuth`). -/
def specBearerCredential (h : String) : Option String :=
  if pyStartsWith h "Bearer " then some (String.mk (h.data.drop 7)) else Option.none

/-- Role test used by the scan: the element's role is "user". -/
def isUserRole (m : PyVal) : Bool := lookupD m "role" = PyVal.str "user"

/-- Role test used by the scan: the element's role is "bot" or
"assistant". -/
def isBotRole (m : PyVal) : Bool :=
  lookupD m "role" = PyVal.str "bot" || lookupD m "role" = PyVal.str "assistant"

/-- Spec-side reading of the claim for the message scan: the message
text of the first element, in the given scan order, whose role
matches — regardless of whether that element carries a message text. -/
def specLastMessage (roleOk : PyVal → Bool) (scanned : List PyVal) : PyVal :=
  match scanned.find? roleOk with
  | some m => lookupD m "message"
  | Option.none => PyVal.none

/-- What the code's scan actually produces: the message text of the
first element, in the given scan order, whose role matches and whose
message text is non-`None`. -/
def firstPresentMsg (roleOk : PyVal → Bool) : List PyVal → PyVal
  | [] => PyVal.none
  | m :: rest =>
    if roleOk m ∧ lookupD m "message" ≠ PyVal.none then lookupD m "message"
    else firstPresentMsg roleOk rest

/-- Keep the first value unless it is `None`. -/
def orElseVal (a b : PyVal) : PyVal := if a = PyVal.none then b else a

/-- A value on which a fallback `x or <empty>` followed by `.get` is
safe: a dict, or falsy (so the fallback replaces it). -/
def dictOrFalsy (v : PyVal) : Bool := v.isDict || !v.truthy

/-- All elements of a Python list are dicts. -/
def allDictItems : PyItems → Bool
  | .nil => true
  | .cons v rest => v.isDict && allDictItems rest

/-- Shape condition under which the extractor of lines 128-218 of
`submit_call.py` is exception-free: the body and each accessed nested
container (`message`; its `call`, `phoneNumber`, `customer`,
`assistant`, `artifact`; `call.transport`, `call.customer`,
`assistant.model`, `assistant.voice`) is a dict or falsy, and, when
`artifact.messages or []` is a list, every element is a dict. -/
def wellShaped (data : PyVal) : Bool :=
  data.isDict &&
  (dictOrFalsy (lookupD data "message") &&
    (let message := pyOrDict (lookupD data "message")
     dictOrFalsy (lookupD message "call") &&
     (dictOrFalsy (lookupD message "phoneNumber") &&
     (dictOrFalsy (lookupD message "customer") &&
     (dictOrFalsy (lookupD message "assistant") &&
     (dictOrFalsy (lookupD message "artifact") &&
     (let call_obj := pyOrDict (lookupD message "call")
      dictOrFalsy (lookupD call_obj "transport") &&
      (dictOrFalsy (lookupD call_obj "customer") &&
      (let assistant_obj := pyOrDict (lookupD message "assistant")
       dictOrFalsy (lookupD assistant_obj "model") &&
       (dictOrFalsy (lookupD assistant_obj "voice") &&
       (let artifact_obj := pyOrDict (lookupD message "artifact")
        match pyOrList (lookupD artifact_obj "messages") with
        | .list l => allDictItems l
        | _ => true)))))))))))

/-- A minimal event payload: a message of the given event type whose
call object carries the id "call-1". -/
def eventPayload (event_type : String) : PyVal :=
  pyd [("message", pyd [("type", PyVal.str event_type),
    ("call", pyd [("id", PyVal.str "call-1")])])]

/-- A payload whose artifact message list contains a non-dict element
(the string "oops"), alongside a valid call id. -/
def badArtifactPayload : PyVal :=
  pyd [("message", pyd [("type", PyVal.str "end-of-call-report"),
    ("call", pyd [("id", PyVal.str "call-1")]),
    ("artifact", pyd [("messages", pyl [PyVal.str "oops"])])])]

/-- A Vapi call object carrying a genuine summary. -/
def vapiCallData : PyVal := pyd [("summary", PyVal.str "Great call.")]

instance {ε α : Type} [DecidableEq ε] [DecidableEq α] : DecidableEq (Except ε α) :=
  fun a b =>
    match a, b with
    | .ok x, .ok y =>
      if h : x = y then isTrue (by rw [h])
      else isFalse (fun c => h (by injection c))
    | .error x, .error y =>
      if h : x = y then isTrue (by rw [h])
      else isFalse (fun c => h (by injection c))
    | .ok _, .error _ => isFalse (fun c => Except.noConfusion c)
    | .error _, .ok _ => isFalse (fun c => Except.noConfusion c)

lemma calls1Ids_upsert_mem (db : List Calls1Row) (id : PyVal) (d : Calls1Data)
    (t : Nat) : ∀ x ∈ calls1Ids (upsertCalls1 db id d t), x ∈ calls1Ids db ∨ x = id := by
  induction db with
  | nil => intro x hx; simp [upsertCalls1, calls1Ids] at hx; simp [hx]
  | cons r rest ih =>
    intro x hx
    by_cases h : r.id = id
    · simp only [upsertCalls1, if_pos h, calls1Ids, List.map_cons, List.mem_cons] at hx ⊢
      rcases hx with h1 | h1
      · exact Or.inl (Or.inl h1)
      · exact Or.inl (Or.inr h1)
    · simp only [upsertCalls1, if_neg h, calls1Ids, List.map_cons, List.mem_cons] at hx ⊢
      rcases hx with h1 | h1
      · exact Or.inl (Or.inl h1)
      · rcases ih x h1 with h2 | h2
        · exact Or.inl (Or.inr h2)
        · exact Or.inr h2

lemma uniqueIds_upsert (db : List Calls1Row) (id : PyVal) (d : Calls1Data) (t : Nat)
    (h : uniqueIds db) : uniqueIds (upsertCalls1 db id d t) := by
  induction db with
  | nil => simp [upsertCalls1, uniqueIds, calls1Ids]
  | cons r rest ih =>
    rw [uniqueIds, calls1Ids] at h
    simp only [List.map_cons, List.nodup_cons] at h
    by_cases hc : r.id = id
    · rw [uniqueIds, calls1Ids]
      simp only [upsertCalls1, if_pos hc, List.map_cons, List.nodup_cons]
      exact ⟨by simpa using h.1, h.2⟩
    · rw [uniqueIds, calls1Ids]
      simp only [upsertCalls1, if_neg hc, List.map_cons, List.nodup_cons]
      constructor
      · intro hx
        rcases calls1Ids_upsert_mem rest id d t r.id (by simpa [calls1Ids] using hx) with h2 | h2
        · exact h.1 (by simpa [calls1Ids] using h2)
        · exact hc h2
      · exact ih h.2

lemma rowsFor_upsert (db : List Calls1Row) (id : PyVal) (d : Calls1Data) (t : Nat)
    (h : uniqueIds db) :
    (rowsFor (upsertCalls1 db id d t) id).map (fun r => (r.data, r.updated_at)) = [(d, t)] := by
  induction db with
  | nil => simp [upsertCalls1, rowsFor]
  | cons r rest ih =>
    rw [uniqueIds, calls1Ids] at h
    simp only [List.map_cons, List.nodup_cons] at h
    by_cases hc : r.id = id
    · simp only [upsertCalls1, if_pos hc, rowsFor, List.filter_cons]
      have hkeep : decide (({ r with data := d, updated_at := t } : Calls1Row).id = id) = true := by
        simp [hc]
      simp only [hkeep]
      have hrest : rest.filter (fun q => decide (q.id = id)) = [] := by
        apply List.filter_eq_nil_iff.2
        intro a ha
        simp only [decide_eq_true_eq]
        intro hai
        exact h.1 (by rw [← hc] at hai; exact List.mem_map.2 ⟨a, ha, hai⟩)
      simp [hrest]
    · simp only [upsertCalls1, if_neg hc, rowsFor, List.filter_cons]
      have hdrop : decide (r.id = id) = false := by simp [hc]
      simp only [hdrop]
      simpa [rowsFor] using ih h.2

/-- A concrete `Calls1Data` used by witnesses: every scalar column
`None` except the event type, the JSON buckets empty. -/
def sampleData (event_type : String) : Calls1Data :=
  ⟨PyVal.none, PyVal.none, PyVal.str event_type, PyVal.none, PyVal.none, PyVal.none,
    PyVal.none, PyVal.none, PyVal.none, PyVal.none, PyVal.none, PyVal.none,
    PyVal.none, PyVal.none, PyVal.none, PyVal.none, PyVal.none, PyVal.none,
    PyVal.none, PyVal.none, PyVal.none, PyVal.none, PyVal.none, PyVal.none,
    PyVal.none, PyVal.none, PyVal.none, Option.none, pyl [], pyl [], pyl [],
    pyd [], pyd [], pyd [], pyd [], pyd [], pyd []⟩

/-- C2: the `Calls1` upsert is keyed by the external call id with
newest-wins semantics.  Starting from any table state whose ids are
unique (the PRIMARY KEY invariant), two successive upserts under the
same id leave exactly one row for that id; its data columns (the
`Calls1Data` record, which comprises every non-key column including the
JSON side channels and `call_summary`) all equal the second event's
values and its `updated_at` equals the second event's `NOW()`.  The
identical-payload-twice case of the spec is the instance `d1 = d2`. -/
theorem calls1_upsert_newest_wins (db : List Calls1Row) (id : PyVal)
    (d1 d2 : Calls1Data) (t1 t2 : Nat) (h : uniqueIds db) :
    (rowsFor (upsertCalls1 (upsertCalls1 db id d1 t1) id d2 t2) id).length = 1
    ∧ (rowsFor (upsertCalls1 (upsertCalls1 db id d1 t1) id d2 t2) id).map
        (fun r => (r.data, r.updated_at)) = [(d2, t2)] := by
  have h1 := uniqueIds_upsert db id d1 t1 h
  have h2 := rowsFor_upsert (upsertCalls1 db id d1 t1) id d2 t2 h1
  refine ⟨?_, h2⟩
  have := congrArg List.length h2
  simpa using this

/-- Witness for `calls1_upsert_newest_wins` at a concrete table state
and a pair of concrete events with the same id. -/
theorem calls1_upsert_newest_wins_witness :
    (rowsFor (upsertCalls1 (upsertCalls1 [] (PyVal.str "call-1") (sampleData "tool-calls") 1)
      (PyVal.str "call-1") (sampleData "end-of-call-report") 2) (PyVal.str "call-1")).length = 1
    ∧ (rowsFor (upsertCalls1 (upsertCalls1 [] (PyVal.str "call-1") (sampleData "tool-calls") 1)
      (PyVal.str "call-1") (sampleData "end-of-call-report") 2) (PyVal.str "call-1")).map
        (fun r => (r.data, r.updated_at)) = [(sampleData "end-of-call-report", 2)] :=
  calls1_upsert_newest_wins [] (PyVal.str "call-1") (sampleData "tool-calls")
    (sampleData "end-of-call-report") 1 2 (by simp [uniqueIds, calls1Ids])

/-- The `Calls1Data` the pipeline stores for `eventPayload et` when the
Vapi fetch fails for lack of an API key: the event type verbatim, every
absent column `None`, and the summary diagnostic. -/
def eventData (event_type : String) : Calls1Data :=
  ⟨PyVal.none, PyVal.none, PyVal.str event_type, PyVal.none, PyVal.none, PyVal.none,
    PyVal.none, PyVal.none, PyVal.none, PyVal.none, PyVal.none, PyVal.none,
    PyVal.none, PyVal.none, PyVal.none, PyVal.none, PyVal.none, PyVal.none,
    PyVal.none, PyVal.none, PyVal.none, PyVal.none, PyVal.none, PyVal.none,
    PyVal.none, PyVal.none, PyVal.none,
    some "[DEBUG call_summary] call_data is None for call_id=call-1",
    pyl [], pyl [], pyl [], pyd [], pyd [("id", PyVal.str "call-1")], pyd [], pyd [],
    pyd [],
    pyd [("type", PyVal.str event_type), ("call", pyd [("id", PyVal.str "call-1")])]⟩

/-- C1 counterexample: an authenticated "status-update" event is NOT
ignored — `submit_call` answers 200 with body status "ok" (no "ignored"
acknowledgement exists in the code) and inserts a `Calls1` row carrying
`event_type = "status-update"`; the code has no event-type test at all
between parsing (line 129 of `submit_call.py`) and the upsert. -/
theorem status_update_persisted_cex :
    submit_call (some "k") (some "Bearer k") (some (eventPayload "status-update"))
      FetchResult.noApiKey [] 5 =
      Except.ok ((200, "ok"), [⟨PyVal.str "call-1", eventData "status-update", 5, 5⟩])
    ∧ (dbOfRun [] (submit_call (some "k") (some "Bearer k")
        (some (eventPayload "status-update")) FetchResult.noApiKey [] 5)).length = 1 := by
  exact ⟨by decide, by decide⟩

/-- C1 amended: `submit_call` applies no event-type filter.  For every
event-type string (including "status-update"), every prior table state
and clock, an authenticated event carrying a call id is persisted
through the `Calls1` upsert and acknowledged with HTTP 200 and body
status "ok"; no ignore path exists. -/
theorem no_event_type_filter (et : String) (db : List Calls1Row) (now : Nat) :
    submit_call (some "k") (some "Bearer k") (some (eventPayload et))
      FetchResult.noApiKey db now =
    Except.ok ((200, "ok"), upsertCalls1 db (PyVal.str "call-1") (eventData et) now) := rfl

/-- A stored contact whose first name is already set. -/
def existingContact : ContactRow :=
  ⟨PyVal.str "+17035551234", PyVal.str "Calvin", PyVal.none, PyVal.none⟩

/-- C4 counterexample: upserting a present incoming first name "Bob"
onto a stored contact whose first name is "Calvin" leaves "Calvin" in
place — the SQL is `COALESCE(contacts.first_name, EXCLUDED.first_name)`
(line 61 of `contacts.py`), so the stored value wins; the claim's
"overwritten with the incoming value when the incoming value is
present" demands "Bob". -/
theorem contacts_overwrite_cex :
    upsert_contact (some "k") (some "Bearer k")
      (some (pyd [("phone_number", PyVal.str "+17035551234"),
        ("first_name", PyVal.str "Bob")])) [existingContact] =
      Except.ok ((201, "success"), [existingContact])
    ∧ existingContact.first_name = PyVal.str "Calvin"
    ∧ PyVal.str "Calvin" ≠ PyVal.str "Bob" := by
  exact ⟨by decide, by decide, by decide⟩

/-- C4 amended: the contact merge keeps the stored value of each
optional field whenever the stored value is present (non-NULL),
regardless of the incoming value, and writes the incoming value only
when the stored value is NULL; a new phone number inserts the incoming
values as given. -/
theorem contacts_merge_stored_wins :
    (∀ a b : PyVal, a ≠ PyVal.none → coalesce a b = a)
    ∧ (∀ b : PyVal, coalesce PyVal.none b = b)
    ∧ (∀ (pn f1 l1 e1 f2 l2 e2 : PyVal) (rest : List ContactRow),
        upsertContacts (⟨pn, f1, l1, e1⟩ :: rest) pn f2 l2 e2 =
          ⟨pn, coalesce f1 f2, coalesce l1 l2, coalesce e1 e2⟩ :: rest)
    ∧ (∀ pn f l em : PyVal, upsertContacts [] pn f l em = [⟨pn, f, l, em⟩]) := by
  refine ⟨?_, fun b => rfl, ?_, fun pn f l em => rfl⟩
  · intro a b ha
    cases a <;> first | exact absurd rfl ha | rfl
  · intro pn f1 l1 e1 f2 l2 e2 rest
    simp [upsertContacts]

/-- Witness for `contacts_merge_stored_wins` on concrete field values:
a present stored value survives a present incoming value. -/
theorem contacts_merge_stored_wins_witness :
    coalesce (PyVal.str "Calvin") (PyVal.str "Bob") = PyVal.str "Calvin" :=
  contacts_merge_stored_wins.1 (PyVal.str "Calvin") (PyVal.str "Bob") (by decide)

/-- A payload whose call object carries the given `type` string. -/
def callTypePayload (call_type : String) : PyVal :=
  pyd [("message", pyd [("type", PyVal.str "end-of-call-report"),
    ("call", pyd [("id", PyVal.str "call-1"), ("type", PyVal.str call_type)])])]

/-- The `Calls1Data` the pipeline stores for `callTypePayload ct` under
a failing fetch: the call type is stored verbatim in `call_type`. -/
def callTypeData (call_type : String) : Calls1Data :=
  ⟨PyVal.none, PyVal.none, PyVal.str "end-of-call-report", PyVal.str call_type,
    PyVal.none, PyVal.none, PyVal.none, PyVal.none, PyVal.none, PyVal.none,
    PyVal.none, PyVal.none, PyVal.none, PyVal.none, PyVal.none, PyVal.none,
    PyVal.none, PyVal.none, PyVal.none, PyVal.none, PyVal.none, PyVal.none,
    PyVal.none, PyVal.none, PyVal.none, PyVal.none, PyVal.none,
    some "[DEBUG call_summary] call_data is None for call_id=call-1",
    pyl [], pyl [], pyl [], pyd [],
    pyd [("id", PyVal.str "call-1"), ("type", PyVal.str call_type)], pyd [], pyd [],
    pyd [],
    pyd [("type", PyVal.str "end-of-call-report"),
      ("call", pyd [("id", PyVal.str "call-1"), ("type", PyVal.str call_type)])]⟩

/-- C6 counterexample: for a "webCall" event the complete stored row
data is `callTypeData "webCall"` — the call-type string sits verbatim
in `call_type`, no direction value "unknown" (or any direction value)
is derived or stored anywhere, and neither the INSERT column list nor
the CREATE TABLE schema has a "direction" column; the claimed
direction derivation does not exist in the code. -/
theorem no_direction_cex :
    (dbOfRun [] (submit_call (some "k") (some "Bearer k")
      (some (callTypePayload "webCall")) FetchResult.noApiKey [] 7)).map
      (fun r => r.data) = [callTypeData "webCall"]
    ∧ calls1CreateColumns.contains "direction" = false
    ∧ (callTypeData "webCall").call_type = PyVal.str "webCall" := by
  exact ⟨by decide, by decide, by decide⟩

/-- C6 amended: the extractor derives no direction value.  For every
call-type string the pipeline stores the string unchanged in the
`call_type` column, and no "direction" column exists in the INSERT or
in the table schema. -/
theorem call_type_stored_verbatim (ct : String) (db : List Calls1Row) (now : Nat) :
    submit_call (some "k") (some "Bearer k") (some (callTypePayload ct))
      FetchResult.noApiKey db now =
      Except.ok ((200, "ok"), upsertCalls1 db (PyVal.str "call-1") (callTypeData ct) now)
    ∧ calls1InsertColumns.contains "direction" = false
    ∧ calls1CreateColumns.contains "direction" = false :=
  ⟨rfl, by decide, by decide⟩

/-- First run of the C10 scenario: an end-of-call-report event whose
Vapi fetch succeeds with a genuine summary. -/
def eocRun : Except String ((Nat × String) × List Calls1Row) :=
  submit_call (some "k") (some "Bearer k") (some (eventPayload "end-of-call-report"))
    (FetchResult.ok vapiCallData) [] 1

/-- Table contents after `eocRun`. -/
def dbAfterEoc : List Calls1Row := dbOfRun [] eocRun

/-- Second run of the C10 scenario: a duplicate "status-update" event
for the same call id whose enrichment fetch has outcome `f`. -/
def dupRun (f : FetchResult) : Except String ((Nat × String) × List Calls1Row) :=
  submit_call (some "k") (some "Bearer k") (some (eventPayload "status-update"))
    f dbAfterEoc 2

/-- C10: the enrichment call is issued on every accepted event — also on
a duplicate event of an unrelated type — and its outcome overwrites
`call_summary` on conflict.  After the first event stores the genuine
summary "Great call.", a second event for the same call id (of type
"status-update") whose enrichment fails with any failure outcome
replaces it with the diagnostic debug string, still leaving exactly one
row. -/
theorem summary_diag_overwrite (f : FetchResult) (hf : isFetchFailure f = true) :
    dbAfterEoc.map (fun r => r.data.call_summary) = [some "Great call."]
    ∧ (dbOfRun dbAfterEoc (dupRun f)).map (fun r => r.data.call_summary) =
        [some "[DEBUG call_summary] call_data is None for call_id=call-1"]
    ∧ (dbOfRun dbAfterEoc (dupRun f)).length = 1 := by
  cases f with
  | ok d => simp [isFetchFailure] at hf
  | noApiKey => exact ⟨by decide, by decide, by decide⟩
  | timeout => exact ⟨by decide, by decide, by decide⟩
  | badJson => exact ⟨by decide, by decide, by decide⟩
  | requestFailed e => exact ⟨by decide, rfl, rfl⟩

/-- Witness for `summary_diag_overwrite` at the timeout outcome. -/
theorem summary_diag_overwrite_witness :
    dbAfterEoc.map (fun r => r.data.call_summary) = [some "Great call."]
    ∧ (dbOfRun dbAfterEoc (dupRun FetchResult.timeout)).map (fun r => r.data.call_summary) =
        [some "[DEBUG call_summary] call_data is None for call_id=call-1"]
    ∧ (dbOfRun dbAfterEoc (dupRun FetchResult.timeout)).length = 1 :=
  summary_diag_overwrite FetchResult.timeout rfl

lemma bearer_data : "Bearer ".data = ['B','e','a','r','e','r',' '] := rfl

lemma data_append_bearer (c : String) :
    ("Bearer " ++ c).data = 'B' :: 'e' :: 'a' :: 'r' :: 'e' :: 'r' :: ' ' :: c.data := by
  rw [String.data_append, bearer_data]; rfl

lemma ne_empty_append (s t : String) (h : s ≠ "") : s ++ t ≠ "" := by
  intro hc
  apply h
  have hd := congrArg String.data hc
  rw [String.data_append] at hd
  have h2 : s.data = [] := by
    cases hs : s.data with
    | nil => rfl
    | cons a as => rw [hs] at hd; simp at hd
  exact String.ext h2

lemma startsWith_bearer_append (c : String) : pyStartsWith ("Bearer " ++ c) "Bearer " = true := by
  simp [pyStartsWith, String.data_append, List.isPrefixOf]

lemma removeBearer_chars (l : List Char) :
    removeBearer ('B' :: 'e' :: 'a' :: 'r' :: 'e' :: 'r' :: ' ' :: l) = removeBearer l := rfl

lemma authToken_bearer_append (c : String) : authToken ("Bearer " ++ c) = authToken c := by
  unfold authToken
  rw [data_append_bearer, removeBearer_chars]

/-- C8 counterexample: with secret "s3cret", the header
"Bearer s3cret " (trailing space) is accepted although the credential
carried after the bearer prefix is "s3cret ", which is not
byte-for-byte equal to the secret — the handler first removes every
"Bearer " occurrence and then strips surrounding whitespace (line 119
of `submit_call.py`), so whitespace-padded credentials pass. -/
theorem bearer_auth_cex :
    checkAuth (some "s3cret") (some "Bearer s3cret ") = AuthResult.ok
    ∧ specBearerCredential "Bearer s3cret " = some "s3cret "
    ∧ some "s3cret " ≠ some "s3cret" := by
  exact ⟨by decide, by decide, by decide⟩

/-- C8 amended: a bearer-form request is authorized iff the header,
after removing every occurrence of "Bearer " and stripping surrounding
whitespace, equals the configured secret.  Consequently a credential
equal to the secret is accepted, but so are credentials that differ
from the secret by surrounding whitespace or by repeated "Bearer "
prefix text; a genuinely different credential is still rejected. -/
theorem bearer_token_normalized (s c : String) (hs : s ≠ "") :
    (checkAuth (some s) (some ("Bearer " ++ c)) = AuthResult.ok ↔ authToken c = s)
    ∧ checkAuth (some "s3cret") (some "Bearer s3cret ") = AuthResult.ok
    ∧ checkAuth (some "s3cret") (some "Bearer Bearer s3cret") = AuthResult.ok
    ∧ checkAuth (some "s3cret") (some "Bearer xs3cret") = AuthResult.invalidKey := by
  refine ⟨?_, by decide, by decide, by decide⟩
  have hne := ne_empty_append "Bearer " c (by decide)
  have hsw := startsWith_bearer_append c
  have htok := authToken_bearer_append c
  simp only [checkAuth, if_neg hs, if_neg hne, hsw, if_pos rfl, htok]
  constructor
  · intro h
    by_cases ht : authToken c = s
    · exact ht
    · simp [ht] at h
  · intro h
    simp [h]

/-- Witness for `bearer_token_normalized` at the secret "k" and
credential "k". -/
theorem bearer_token_normalized_witness :
    (checkAuth (some "k") (some ("Bearer " ++ "k")) = AuthResult.ok ↔ authToken "k" = "k")
    ∧ checkAuth (some "s3cret") (some "Bearer s3cret ") = AuthResult.ok
    ∧ checkAuth (some "s3cret") (some "Bearer Bearer s3cret") = AuthResult.ok
    ∧ checkAuth (some "s3cret") (some "Bearer xs3cret") = AuthResult.invalidKey :=
  bearer_token_normalized "k" "k" (by decide)

lemma checkAuth_empty_hdr_or_nonbearer (s h : String) (hs : s ≠ "")
    (hb : pyStartsWith h "Bearer " = false) :
    checkAuth (some s) (some h) = AuthResult.missingHeader := by
  by_cases hh : h = "" <;> simp [checkAuth, hs, hb, hh]

lemma checkAuth_bad_token (s h : String) (hs : s ≠ "")
    (hb : pyStartsWith h "Bearer " = true) (ht : authToken h ≠ s) :
    checkAuth (some s) (some h) = AuthResult.invalidKey := by
  have hh : h ≠ "" := by
    intro he
    rw [he] at hb
    exact absurd hb (by decide)
  simp [checkAuth, hs, hh, hb, ht]

/-- C9: authentication fails closed and is side-effect free on both
routes.  With no secret configured (unset or empty environment value)
every request gets 500 regardless of the presented credential; with a
secret configured, a missing or non-bearer Authorization header gets
401 and a wrong token gets 403 on `/submit_call` and 401 on
`/contacts`; in every case the table contents are returned unchanged —
no call row and no contact row is written. -/
theorem auth_fails_closed (body : Option PyVal) (f : FetchResult)
    (db : List Calls1Row) (now : Nat) (cdb : List ContactRow) :
    (∀ hdr, submit_call Option.none hdr body f db now =
        Except.ok ((500, "Server missing API_KEY_SECRET"), db)
      ∧ upsert_contact Option.none hdr body cdb =
        Except.ok ((500, "Server missing API_KEY_SECRET"), cdb))
    ∧ (∀ hdr, submit_call (some "") hdr body f db now =
        Except.ok ((500, "Server missing API_KEY_SECRET"), db)
      ∧ upsert_contact (some "") hdr body cdb =
        Except.ok ((500, "Server missing API_KEY_SECRET"), cdb))
    ∧ (∀ s : String, s ≠ "" →
        submit_call (some s) Option.none body f db now =
          Except.ok ((401, "Missing Authorization header"), db)
        ∧ upsert_contact (some s) Option.none body cdb =
          Except.ok ((401, "Missing Authorization header"), cdb))
    ∧ (∀ s h : String, s ≠ "" → pyStartsWith h "Bearer " = false →
        submit_call (some s) (some h) body f db now =
          Except.ok ((401, "Missing Authorization header"), db)
        ∧ upsert_contact (some s) (some h) body cdb =
          Except.ok ((401, "Missing Authorization header"), cdb))
    ∧ (∀ s h : String, s ≠ "" → pyStartsWith h "Bearer " = true → authToken h ≠ s →
        submit_call (some s) (some h) body f db now =
          Except.ok ((403, "Invalid API key"), db)
        ∧ upsert_contact (some s) (some h) body cdb =
          Except.ok ((401, "Invalid API key"), cdb)) := by
  refine ⟨fun hdr => ⟨rfl, rfl⟩, fun hdr => ?_, fun s hs => ?_, fun s h hs hb => ?_,
    fun s h hs hb ht => ?_⟩
  · have hca : checkAuth (some "") hdr = AuthResult.serverMisconfig := by
      simp [checkAuth]
    exact ⟨by simp [submit_call, hca], by simp [upsert_contact, hca]⟩
  · have hca : checkAuth (some s) Option.none = AuthResult.missingHeader := by
      simp [checkAuth, hs]
    exact ⟨by simp [submit_call, hca], by simp [upsert_contact, hca]⟩
  · have hca := checkAuth_empty_hdr_or_nonbearer s h hs hb
    exact ⟨by simp [submit_call, hca], by simp [upsert_contact, hca]⟩
  · have hca := checkAuth_bad_token s h hs hb ht
    exact ⟨by simp [submit_call, hca], by simp [upsert_contact, hca]⟩

/-- Witness for `auth_fails_closed`: a non-bearer header is rejected
with 401 by both routes, leaving the empty tables empty. -/
theorem auth_fails_closed_witness :
    submit_call (some "k") (some "Basic k") Option.none FetchResult.noApiKey [] 0 =
      Except.ok ((401, "Missing Authorization header"), [])
    ∧ upsert_contact (some "k") (some "Basic k") Option.none [] =
      Except.ok ((401, "Missing Authorization header"), []) :=
  (auth_fails_closed Option.none FetchResult.noApiKey [] 0 []).2.2.2.1 "k" "Basic k"
    (by decide) (by decide)

lemma bind_ok {ε α β : Type} (a : α) (f : α → Except ε β) :
    (Except.ok a >>= f) = f a := rfl

lemma submit_call_authed_of_ok (secret header : Option String) (data : PyVal)
    (vapi : FetchResult) (db : List Calls1Row) (now : Nat)
    (hauth : checkAuth secret header = AuthResult.ok) :
    submit_call secret header (some data) vapi db now =
      submit_call_authed data vapi db now := by
  unfold submit_call
  rw [hauth]

/-- C5: the summary enrichment is non-fatal.  For every failing fetch
outcome (missing `VAPI_API_KEY`, timeout, request failure — which
includes non-success HTTP statuses via `raise_for_status` — or an
unparseable response body) and every accepted event (auth passed,
extraction succeeded, call id truthy), `submit_call` still answers 200
and upserts the row with all extracted fields intact; the summary
column holds the descriptive diagnostic string, and the request is
never aborted by the enrichment step. -/
theorem enrichment_never_aborts (f : FetchResult) (hf : isFetchFailure f = true)
    (secret header : Option String) (data : PyVal) (db : List Calls1Row) (now : Nat)
    (e : EnvelopeFields) (flds : WebhookFields)
    (hauth : checkAuth secret header = AuthResult.ok)
    (henv : extractEnvelope data = Except.ok e)
    (hid : e.call_id.truthy = true)
    (hdet : extractDetails data e = Except.ok flds) :
    submit_call secret header (some data) f db now =
      Except.ok ((200, "ok"), upsertCalls1 db e.call_id (mkCalls1Data flds
        (some ("[DEBUG call_summary] call_data is None for call_id=" ++
          pyToStr e.call_id))) now) := by
  have hne : ("[DEBUG call_summary] call_data is None for call_id=" ++
      pyToStr e.call_id) ≠ "" :=
    ne_empty_append _ _ (by decide)
  rw [submit_call_authed_of_ok secret header data f db now hauth]
  unfold submit_call_authed
  rw [henv, bind_ok]
  simp only [hid, if_true]
  rw [hdet, bind_ok]
  cases f with
  | ok d => simp [isFetchFailure] at hf
  | noApiKey =>
    simp [fetch_call_from_vapi, extract_summary_from_call, bind_ok, pyOrStr, hne]
  | timeout =>
    simp [fetch_call_from_vapi, extract_summary_from_call, bind_ok, pyOrStr, hne]
  | badJson =>
    simp [fetch_call_from_vapi, extract_summary_from_call, bind_ok, pyOrStr, hne]
  | requestFailed err =>
    simp [fetch_call_from_vapi, extract_summary_from_call, bind_ok, pyOrStr, hne]

/-- The envelope extracted from `eventPayload "end-of-call-report"`. -/
def eocEnvelope : EnvelopeFields :=
  ⟨pyd [("type", PyVal.str "end-of-call-report"),
      ("call", pyd [("id", PyVal.str "call-1")])],
    PyVal.str "end-of-call-report",
    pyd [("id", PyVal.str "call-1")], pyd [], pyd [], pyd [], pyd [],
    pyl [], pyl [], pyl [], PyVal.str "call-1"⟩

/-- The full field set extracted from
`eventPayload "end-of-call-report"`. -/
def eocFields : WebhookFields :=
  ⟨pyd [("type", PyVal.str "end-of-call-report"),
      ("call", pyd [("id", PyVal.str "call-1")])],
    PyVal.str "end-of-call-report",
    pyd [("id", PyVal.str "call-1")], pyd [], pyd [], pyd [], pyd [],
    pyl [], pyl [], pyl [], PyVal.str "call-1",
    PyVal.none, PyVal.none, PyVal.none, PyVal.none, PyVal.none, PyVal.none,
    PyVal.none, PyVal.none, PyVal.none, PyVal.none, PyVal.none, PyVal.none,
    PyVal.none, PyVal.none, PyVal.none, PyVal.none, PyVal.none, PyVal.none,
    PyVal.none, PyVal.none, PyVal.none, PyVal.none, PyVal.none, PyVal.none,
    PyVal.none, PyVal.none⟩

/-- Witness for `enrichment_never_aborts`: a timed-out enrichment on a
concrete end-of-call-report event still stores the row, with the
diagnostic in the summary column. -/
theorem enrichment_never_aborts_witness :
    submit_call (some "k") (some "Bearer k") (some (eventPayload "end-of-call-report"))
      FetchResult.timeout [] 0 =
      Except.ok ((200, "ok"), upsertCalls1 [] (PyVal.str "call-1")
        (mkCalls1Data eocFields
          (some "[DEBUG call_summary] call_data is None for call_id=call-1")) 0) :=
  enrichment_never_aborts FetchResult.timeout rfl (some "k") (some "Bearer k")
    (eventPayload "end-of-call-report") [] 0 eocEnvelope eocFields
    (by decide) (by decide) (by decide) (by decide)

lemma pyGet_ok_of_isDict (v : PyVal) (h : v.isDict = true) (k : String) :
    pyGet v k = Except.ok (lookupD v k) := by
  cases v <;> first | rfl | simp [PyVal.isDict] at h

lemma orElseVal_none_right (x : PyVal) : orElseVal x PyVal.none = x := by
  unfold orElseVal
  split <;> simp_all

lemma orElseVal_of_ne (x y : PyVal) (h : x ≠ PyVal.none) : orElseVal x y = x := by
  simp [orElseVal, h]

lemma firstPresent_user_step (m : PyVal) (rest : List PyVal) (lu : PyVal) :
    orElseVal lu (firstPresentMsg isUserRole (m :: rest)) =
      orElseVal (if lookupD m "role" = PyVal.str "user" ∧ lu = PyVal.none
        then lookupD m "message" else lu) (firstPresentMsg isUserRole rest) := by
  by_cases hlu : lu = PyVal.none
  · subst hlu
    by_cases hrole : lookupD m "role" = PyVal.str "user"
    · by_cases hmsg : lookupD m "message" = PyVal.none
      · simp [orElseVal, firstPresentMsg, isUserRole, hrole, hmsg]
      · simp [orElseVal, firstPresentMsg, isUserRole, hrole, hmsg]
    · simp [orElseVal, firstPresentMsg, isUserRole, hrole]
  · simp [orElseVal, hlu]

lemma firstPresent_bot_step (m : PyVal) (rest : List PyVal) (la : PyVal) :
    orElseVal la (firstPresentMsg isBotRole (m :: rest)) =
      orElseVal (if (lookupD m "role" = PyVal.str "bot" ∨
          lookupD m "role" = PyVal.str "assistant") ∧ la = PyVal.none
        then lookupD m "message" else la) (firstPresentMsg isBotRole rest) := by
  by_cases hla : la = PyVal.none
  · subst hla
    by_cases hrole : lookupD m "role" = PyVal.str "bot" ∨
        lookupD m "role" = PyVal.str "assistant"
    · by_cases hmsg : lookupD m "message" = PyVal.none
      · simp [orElseVal, firstPresentMsg, isBotRole, hrole, hmsg]
      · simp [orElseVal, firstPresentMsg, isBotRole, hrole, hmsg]
    · simp [orElseVal, firstPresentMsg, isBotRole, hrole]
  · simp [orElseVal, hla]

lemma scanLoop_eq : ∀ (l : List PyVal), (∀ m ∈ l, m.isDict = true) → ∀ lu la : PyVal,
    scanLoop l lu la =
      Except.ok (orElseVal lu (firstPresentMsg isUserRole l),
        orElseVal la (firstPresentMsg isBotRole l)) := by
  intro l
  induction l with
  | nil =>
    intro _ lu la
    simp [scanLoop, firstPresentMsg, orElseVal_none_right]
  | cons m rest ih =>
    intro hl lu la
    have hm : m.isDict = true := hl m (List.mem_cons_self m rest)
    have hrest : ∀ x ∈ rest, x.isDict = true :=
      fun x hx => hl x (List.mem_cons_of_mem m hx)
    rw [firstPresent_user_step m rest lu, firstPresent_bot_step m rest la]
    unfold scanLoop
    rw [pyGet_ok_of_isDict m hm, bind_ok, pyGet_ok_of_isDict m hm, bind_ok]
    by_cases hstop :
        (if lookupD m "role" = PyVal.str "user" ∧ lu = PyVal.none
          then lookupD m "message" else lu) ≠ PyVal.none ∧
        (if (lookupD m "role" = PyVal.str "bot" ∨
            lookupD m "role" = PyVal.str "assistant") ∧ la = PyVal.none
          then lookupD m "message" else la) ≠ PyVal.none
    · rw [if_pos hstop]
      rw [orElseVal_of_ne _ _ hstop.1, orElseVal_of_ne _ _ hstop.2]
    · rw [if_neg hstop]
      exact ih hrest _ _

lemma toList_ofList (l : List PyVal) : (PyItems.ofList l).toList = l := by
  induction l with
  | nil => rfl
  | cons v rest ih => simp [PyItems.ofList, PyItems.toList, ih]

/-- C7 counterexample: on the message list
`[{role: user, message: "hi"}, {role: user}]` the code yields
`last_user_message = "hi"`, but the first element of the reverse scan
whose role is "user" is `{role: user}`, whose message text is absent —
the claim predicts an absent `last_user_message`.  The loop only
latches a message when it is non-None (`last_user_message is None`
remains true after assigning None, line 213-214 of `submit_call.py`),
so role-matching elements without a message text are skipped. -/
theorem last_message_scan_cex :
    extractLastMessages (pyd [("messages", pyl
      [pyd [("role", PyVal.str "user"), ("message", PyVal.str "hi")],
       pyd [("role", PyVal.str "user")]])]) =
      Except.ok (PyVal.str "hi", PyVal.none)
    ∧ specLastMessage isUserRole
        [pyd [("role", PyVal.str "user"), ("message", PyVal.str "hi")],
         pyd [("role", PyVal.str "user")]].reverse = PyVal.none
    ∧ PyVal.str "hi" ≠ PyVal.none := by
  exact ⟨by decide, by decide, by decide⟩

/-- C7 amended: for every artifact message list whose elements are
dicts, `last_user_message` is the message text of the first element in
the reverse scan whose role is "user" AND whose message text is
present (non-None) — role-matching elements with an absent message are
passed over — and `last_assistant_message` likewise for roles "bot" or
"assistant"; the scan stops once both are found; an absent list leaves
both fields absent. -/
theorem last_messages_reverse_scan (msgs : List PyVal)
    (h : ∀ m ∈ msgs, m.isDict = true) :
    extractLastMessages (pyd [("messages", pyl msgs)]) =
      Except.ok (firstPresentMsg isUserRole msgs.reverse,
        firstPresentMsg isBotRole msgs.reverse)
    ∧ extractLastMessages (pyd []) = Except.ok (PyVal.none, PyVal.none) := by
  refine ⟨?_, by decide⟩
  unfold extractLastMessages
  have h1 : pyGet (pyd [("messages", pyl msgs)]) "messages" = Except.ok (pyl msgs) := rfl
  rw [h1, bind_ok]
  cases msgs with
  | nil => decide
  | cons m rest =>
    show scanLoop ((PyItems.ofList (m :: rest)).toList).reverse PyVal.none PyVal.none =
      Except.ok (firstPresentMsg isUserRole (m :: rest).reverse,
        firstPresentMsg isBotRole (m :: rest).reverse)
    rw [toList_ofList]
    rw [scanLoop_eq (m :: rest).reverse
      (fun x hx => h x (List.mem_reverse.1 hx)) PyVal.none PyVal.none]
    simp [orElseVal]

/-- Witness for `last_messages_reverse_scan` on the spec's own example
list: last user message "bye", last assistant message "hello". -/
theorem last_messages_reverse_scan_witness :
    extractLastMessages (pyd [("messages", pyl
      [pyd [("role", PyVal.str "user"), ("message", PyVal.str "hi")],
       pyd [("role", PyVal.str "bot"), ("message", PyVal.str "hello")],
       pyd [("role", PyVal.str "user"), ("message", PyVal.str "bye")]])]) =
      Except.ok (PyVal.str "bye", PyVal.str "hello") := by
  have h := (last_messages_reverse_scan
    [pyd [("role", PyVal.str "user"), ("message", PyVal.str "hi")],
     pyd [("role", PyVal.str "bot"), ("message", PyVal.str "hello")],
     pyd [("role", PyVal.str "user"), ("message", PyVal.str "bye")]]
    (by decide)).1
  rw [h]
  decide

lemma isDict_pyOrDict (v : PyVal) (h : dictOrFalsy v = true) :
    (pyOrDict v).isDict = true := by
  unfold pyOrDict pyOr
  split
  · rename_i ht
    simp [dictOrFalsy, ht] at h
    exact h
  · simp [PyVal.isDict]

lemma allDictItems_toList : ∀ (l : PyItems), allDictItems l = true →
    ∀ m ∈ l.toList, m.isDict = true
  | .nil, _, m, hm => by simp [PyItems.toList] at hm
  | .cons v rest, h, m, hm => by
    simp only [allDictItems, Bool.and_eq_true] at h
    rcases List.mem_cons.1 (by simpa [PyItems.toList] using hm) with h1 | h1
    · rw [h1]; exact h.1
    · exact allDictItems_toList rest h.2 m h1

lemma extractEnvelope_eq (data : PyVal) (h1 : data.isDict = true)
    (h2 : dictOrFalsy (lookupD data "message") = true)
    (h3 : dictOrFalsy (lookupD (pyOrDict (lookupD data "message")) "call") = true) :
    extractEnvelope data = Except.ok
      ⟨pyOrDict (lookupD data "message"),
       lookupD (pyOrDict (lookupD data "message")) "type",
       pyOrDict (lookupD (pyOrDict (lookupD data "message")) "call"),
       pyOrDict (lookupD (pyOrDict (lookupD data "message")) "phoneNumber"),
       pyOrDict (lookupD (pyOrDict (lookupD data "message")) "customer"),
       pyOrDict (lookupD (pyOrDict (lookupD data "message")) "assistant"),
       pyOrDict (lookupD (pyOrDict (lookupD data "message")) "artifact"),
       pyOrList (lookupD (pyOrDict (lookupD data "message")) "toolCalls"),
       pyOrList (lookupD (pyOrDict (lookupD data "message")) "toolCallList"),
       pyOrList (lookupD (pyOrDict (lookupD data "message")) "toolWithToolCallList"),
       lookupD (pyOrDict (lookupD (pyOrDict (lookupD data "message")) "call")) "id"⟩ := by
  have hm := isDict_pyOrDict (lookupD data "message") h2
  have hc := isDict_pyOrDict (lookupD (pyOrDict (lookupD data "message")) "call") h3
  unfold extractEnvelope
  simp only [pyGet_ok_of_isDict data h1,
    pyGet_ok_of_isDict (pyOrDict (lookupD data "message")) hm,
    pyGet_ok_of_isDict (pyOrDict (lookupD (pyOrDict (lookupD data "message")) "call")) hc,
    bind_ok]
  rfl

lemma bind_pure_ok {ε α β : Type} (a : α) (f : α → Except ε β) :
    ((pure a : Except ε α) >>= f) = f a := rfl

lemma extractLastMessages_ok (artifact_obj : PyVal) (hart : artifact_obj.isDict = true)
    (hmsgs : (match pyOrList (lookupD artifact_obj "messages") with
      | PyVal.list l => allDictItems l
      | _ => true) = true) :
    ∃ p, extractLastMessages artifact_obj = Except.ok p := by
  unfold extractLastMessages
  rw [pyGet_ok_of_isDict artifact_obj hart, bind_ok]
  rcases hml : pyOrList (lookupD artifact_obj "messages") with _ | s | n | b | l | d
  · exact ⟨_, rfl⟩
  · exact ⟨_, rfl⟩
  · exact ⟨_, rfl⟩
  · exact ⟨_, rfl⟩
  · rw [hml] at hmsgs
    exact ⟨_, scanLoop_eq l.toList.reverse
      (fun m hm => allDictItems_toList l hmsgs m (List.mem_reverse.1 hm))
      PyVal.none PyVal.none⟩
  · exact ⟨_, rfl⟩

lemma extractDetails_ok (data : PyVal) (e : EnvelopeFields)
    (hdata : data.isDict = true)
    (hmsg : e.message.isDict = true)
    (hcall : e.call_obj.isDict = true)
    (hphone : e.phone_number_obj.isDict = true)
    (hcust : e.customer_obj.isDict = true)
    (hasst : e.assistant_obj.isDict = true)
    (hart : e.artifact_obj.isDict = true)
    (htrans : dictOrFalsy (lookupD e.call_obj "transport") = true)
    (hccust : dictOrFalsy (lookupD e.call_obj "customer") = true)
    (hmodel : dictOrFalsy (lookupD e.assistant_obj "model") = true)
    (hvoice : dictOrFalsy (lookupD e.assistant_obj "voice") = true)
    (hmsgs : (match pyOrList (lookupD e.artifact_obj "messages") with
      | PyVal.list l => allDictItems l
      | _ => true) = true) :
    exceptOk (extractDetails data e) = true := by
  have htransd := isDict_pyOrDict (lookupD e.call_obj "transport") htrans
  have hccustd := isDict_pyOrDict (lookupD e.call_obj "customer") hccust
  have hmodeld := isDict_pyOrDict (lookupD e.assistant_obj "model") hmodel
  have hvoiced := isDict_pyOrDict (lookupD e.assistant_obj "voice") hvoice
  obtain ⟨p, hp⟩ := extractLastMessages_ok e.artifact_obj hart hmsgs
  unfold extractDetails
  by_cases hct : e.customer_obj.truthy = true
  · simp only [pyGet_ok_of_isDict data hdata, pyGet_ok_of_isDict e.message hmsg,
      pyGet_ok_of_isDict e.call_obj hcall, pyGet_ok_of_isDict e.phone_number_obj hphone,
      pyGet_ok_of_isDict e.customer_obj hcust, pyGet_ok_of_isDict e.assistant_obj hasst,
      pyGet_ok_of_isDict (pyOrDict (lookupD e.call_obj "transport")) htransd,
      pyGet_ok_of_isDict (pyOrDict (lookupD e.assistant_obj "model")) hmodeld,
      pyGet_ok_of_isDict (pyOrDict (lookupD e.assistant_obj "voice")) hvoiced,
      hct, eq_self_iff_true, if_true, hp, bind_ok, bind_pure_ok]
    rfl
  · rw [Bool.not_eq_true] at hct
    simp only [pyGet_ok_of_isDict data hdata, pyGet_ok_of_isDict e.message hmsg,
      pyGet_ok_of_isDict e.call_obj hcall, pyGet_ok_of_isDict e.phone_number_obj hphone,
      pyGet_ok_of_isDict e.assistant_obj hasst,
      pyGet_ok_of_isDict (pyOrDict (lookupD e.call_obj "transport")) htransd,
      pyGet_ok_of_isDict (pyOrDict (lookupD e.call_obj "customer")) hccustd,
      pyGet_ok_of_isDict (pyOrDict (lookupD e.assistant_obj "model")) hmodeld,
      pyGet_ok_of_isDict (pyOrDict (lookupD e.assistant_obj "voice")) hvoiced,
      hct, Bool.false_eq_true, if_false, hp, bind_ok, bind_pure_ok]
    rfl

/-- C3 counterexample: on a payload whose artifact message list holds
the non-dict element "oops", the extractor raises (`m.get` on a string,
line 211 of `submit_call.py`) — `AttributeError` propagates and the
route aborts with Flask's generic 500 instead of storing the event; the
claim says extraction never raises for any JSON body. -/
theorem extraction_raises_cex :
    extractFields badArtifactPayload = Except.error "AttributeError"
    ∧ submit_call (some "k") (some "Bearer k") (some badArtifactPayload)
        FetchResult.noApiKey [] 0 = Except.error "AttributeError" := by
  exact ⟨by decide, by decide⟩

/-- C3 amended: extraction is total on every well-shaped body — one in
which the body and each accessed nested container (`message`, its
`call` / `phoneNumber` / `customer` / `assistant` / `artifact`,
`call.transport`, `call.customer`, `assistant.model`,
`assistant.voice`) is a dict or absent/falsy (falsy values are replaced
by empty containers), and every element of the artifact message list
(when it is a list) is a dict.  Missing keys and falsy mismatches never
raise; a truthy non-dict in a container position, or a non-dict list
element, does raise. -/
theorem extractor_total (data : PyVal) (h : wellShaped data = true) :
    exceptOk (extractFields data) = true := by
  unfold wellShaped at h
  simp only [Bool.and_eq_true] at h
  obtain ⟨h1, h2, h3, h4, h5, h6, h7, h8, h9, h10, h11, h12⟩ := h
  unfold extractFields
  rw [extractEnvelope_eq data h1 h2 h3, bind_ok]
  exact extractDetails_ok data _ h1 (isDict_pyOrDict _ h2) (isDict_pyOrDict _ h3)
    (isDict_pyOrDict _ h4) (isDict_pyOrDict _ h5) (isDict_pyOrDict _ h6)
    (isDict_pyOrDict _ h7) h8 h9 h10 h11 h12

/-- Witness for `extractor_total` on a concrete well-shaped payload. -/
theorem extractor_total_witness :
    wellShaped (eventPayload "end-of-call-report") = true
    ∧ exceptOk (extractFields (eventPayload "end-of-call-report")) = true :=
  ⟨by decide, extractor_total (eventPayload "end-of-call-report") (by decide)⟩
